import Mathlib

/-!
Verification of the GearGuard backend authentication, authorization and
database-connectivity core.  Shallow embedding in Lean 4 of the relevant
Python modules:

  backend/app/core/permissions.py  (role-based access control)
  backend/app/core/security.py     (password policy, JWT token codec)
  backend/app/database.py          (resilient database client)
  backend/app/api/v1/auth.py       (authentication endpoints)

Machine strings are Lean String values; epoch times are Nat seconds;
sleep durations are rationals.
-/

namespace GG

/-! ### Permission registry (backend/app/core/permissions.py) -/

-- Permission string constants from class Permission.
namespace Permission

def ORG_CREATE : String := "organization:create"
def ORG_READ : String := "organization:read"
def ORG_UPDATE : String := "organization:update"
def ORG_DELETE : String := "organization:delete"
def USER_CREATE : String := "user:create"
def USER_READ : String := "user:read"
def USER_UPDATE : String := "user:update"
def USER_DELETE : String := "user:delete"
def USER_MANAGE_ROLES : String := "user:manage_roles"
def EQUIPMENT_CREATE : String := "equipment:create"
def EQUIPMENT_READ : String := "equipment:read"
def EQUIPMENT_UPDATE : String := "equipment:update"
def EQUIPMENT_DELETE : String := "equipment:delete"
def EQUIPMENT_REPORT_ISSUE : String := "equipment:report_issue"
def WORKORDER_CREATE : String := "workorder:create"
def WORKORDER_READ : String := "workorder:read"
def WORKORDER_UPDATE : String := "workorder:update"
def WORKORDER_DELETE : String := "workorder:delete"
def WORKORDER_ASSIGN : String := "workorder:assign"
def WORKORDER_COMPLETE : String := "workorder:complete"
def SCHEDULE_CREATE : String := "schedule:create"
def SCHEDULE_READ : String := "schedule:read"
def SCHEDULE_UPDATE : String := "schedule:update"
def SCHEDULE_DELETE : String := "schedule:delete"
def PARTS_CREATE : String := "parts:create"
def PARTS_READ : String := "parts:read"
def PARTS_UPDATE : String := "parts:update"
def PARTS_DELETE : String := "parts:delete"
def PARTS_USE : String := "parts:use"
def REPORT_CREATE : String := "report:create"
def REPORT_READ : String := "report:read"
def REPORT_UPDATE : String := "report:update"
def REPORT_DELETE : String := "report:delete"
def REPORT_EXPORT : String := "report:export"
def SETTINGS_MANAGE : String := "settings:manage"
def AUDIT_READ : String := "audit:read"
def NOTIFICATION_MANAGE : String := "notification:manage"

end Permission

-- Role name constants from class Role.
namespace Role

def SUPER_ADMIN : String := "super_admin"
def ADMIN : String := "admin"
def MANAGER : String := "manager"
def TECHNICIAN : String := "technician"

end Role

/-- ROLE_PERMISSIONS: default permissions for each role. -/
def ROLE_PERMISSIONS : List (String × List String) :=
  [ (Role.SUPER_ADMIN, ["*"]),
    (Role.ADMIN,
      [ Permission.ORG_READ, Permission.ORG_UPDATE,
        Permission.USER_CREATE, Permission.USER_READ, Permission.USER_UPDATE,
        Permission.USER_DELETE, Permission.USER_MANAGE_ROLES,
        Permission.EQUIPMENT_CREATE, Permission.EQUIPMENT_READ,
        Permission.EQUIPMENT_UPDATE, Permission.EQUIPMENT_DELETE,
        Permission.EQUIPMENT_REPORT_ISSUE,
        Permission.WORKORDER_CREATE, Permission.WORKORDER_READ,
        Permission.WORKORDER_UPDATE, Permission.WORKORDER_DELETE,
        Permission.WORKORDER_ASSIGN, Permission.WORKORDER_COMPLETE,
        Permission.SCHEDULE_CREATE, Permission.SCHEDULE_READ,
        Permission.SCHEDULE_UPDATE, Permission.SCHEDULE_DELETE,
        Permission.PARTS_CREATE, Permission.PARTS_READ, Permission.PARTS_UPDATE,
        Permission.PARTS_DELETE, Permission.PARTS_USE,
        Permission.REPORT_CREATE, Permission.REPORT_READ, Permission.REPORT_EXPORT,
        Permission.SETTINGS_MANAGE, Permission.AUDIT_READ ]),
    (Role.MANAGER,
      [ Permission.USER_READ,
        Permission.EQUIPMENT_CREATE, Permission.EQUIPMENT_READ,
        Permission.EQUIPMENT_UPDATE, Permission.EQUIPMENT_DELETE,
        Permission.EQUIPMENT_REPORT_ISSUE,
        Permission.WORKORDER_CREATE, Permission.WORKORDER_READ,
        Permission.WORKORDER_UPDATE, Permission.WORKORDER_DELETE,
        Permission.WORKORDER_ASSIGN, Permission.WORKORDER_COMPLETE,
        Permission.SCHEDULE_CREATE, Permission.SCHEDULE_READ,
        Permission.SCHEDULE_UPDATE, Permission.SCHEDULE_DELETE,
        Permission.PARTS_CREATE, Permission.PARTS_READ, Permission.PARTS_UPDATE,
        Permission.PARTS_DELETE, Permission.PARTS_USE,
        Permission.REPORT_CREATE, Permission.REPORT_READ, Permission.REPORT_EXPORT ]),
    (Role.TECHNICIAN,
      [ Permission.EQUIPMENT_READ, Permission.EQUIPMENT_UPDATE,
        Permission.EQUIPMENT_REPORT_ISSUE,
        Permission.WORKORDER_CREATE, Permission.WORKORDER_READ,
        Permission.WORKORDER_UPDATE, Permission.WORKORDER_COMPLETE,
        Permission.SCHEDULE_READ,
        Permission.PARTS_READ, Permission.PARTS_USE,
        Permission.REPORT_READ ]) ]

/-- Python dict lookup ROLE_PERMISSIONS.get(role, []). -/
def get_role_permissions (role : String) : List String :=
  ((ROLE_PERMISSIONS.find? (fun p => p.1 = role)).map Prod.snd).getD []

/-- The Python expression required_permission.split(":")[0]: the segment of
the string before its first colon, as a character list operation. -/
def resource_of (q : String) : String :=
  String.mk (q.data.takeWhile (fun c => c != ':'))

/-- Embedding of has_permission: wildcard "*" grants all, exact match grants,
and a resource wildcard built from the part of the required permission before
the first colon grants. -/
def has_permission (user_permissions : List String)
    (required_permission : String) : Bool :=
  if "*" ∈ user_permissions then true
  else if required_permission ∈ user_permissions then true
  else if required_permission.data.contains ':' then
    let resource := resource_of required_permission
    let wildcard := resource ++ ":*"
    if wildcard ∈ user_permissions then true else false
  else false

/-- Embedding of has_any_permission (OR composition). -/
def has_any_permission (user_permissions : List String)
    (required_permissions : List String) : Bool :=
  required_permissions.any (fun p => has_permission user_permissions p)

/-- Embedding of has_all_permissions (AND composition). -/
def has_all_permissions (user_permissions : List String)
    (required_permissions : List String) : Bool :=
  required_permissions.all (fun p => has_permission user_permissions p)

/-- The role_hierarchy dict inside can_manage_role: the lookup result before
the defaults of dict.get are applied. -/
def roleHierarchy : String → Option Nat := fun r =>
  if r = Role.SUPER_ADMIN then some 1
  else if r = Role.ADMIN then some 2
  else if r = Role.MANAGER then some 3
  else if r = Role.TECHNICIAN then some 4
  else none

/-- Embedding of can_manage_role: the manager level defaults to 99 for an
unknown manager role, the target level defaults to 0 for an unknown target
role, and management is allowed only strictly downward. -/
def can_manage_role (manager_role target_role : String) : Bool :=
  let manager_level := (roleHierarchy manager_role).getD 99
  let target_level := (roleHierarchy target_role).getD 0
  decide (manager_level < target_level)

/-! ### Password policy (backend/app/core/security.py) -/

/-- Python str.isupper for a single character, modelled on the ASCII range
used by the policy. -/
def pyIsUpper (c : Char) : Bool := decide ('A' ≤ c) && decide (c ≤ 'Z')

/-- Python str.islower for a single character, modelled on the ASCII range. -/
def pyIsLower (c : Char) : Bool := decide ('a' ≤ c) && decide (c ≤ 'z')

/-- Python str.isdigit for a single character, modelled on the ASCII range. -/
def pyIsDigit (c : Char) : Bool := decide ('0' ≤ c) && decide (c ≤ '9')

/-- The fixed punctuation set of validate_password_strength. -/
def special_chars : String := "!@#$%^&*()_+-=[]\x7b\x7d|;:,.<>?"

/-- The Python expression any(p(c) for c in s), over the character list. -/
def str_has (p : Char → Bool) (s : String) : Bool := s.data.any p

/-- Membership of a character in the special_chars string. -/
def isSpecial (c : Char) : Bool := special_chars.data.contains c

/-- Embedding of validate_password_strength: returns (is_valid, error_message),
checking rules in the order length, uppercase, lowercase, digit, symbol and
reporting the first violated one. -/
def validate_password_strength (password : String) : Bool × String :=
  if password.length < 8 then
    (false, "Password must be at least 8 characters long")
  else if !(str_has pyIsUpper password) then
    (false, "Password must contain at least one uppercase letter")
  else if !(str_has pyIsLower password) then
    (false, "Password must contain at least one lowercase letter")
  else if !(str_has pyIsDigit password) then
    (false, "Password must contain at least one digit")
  else if !(str_has isSpecial password) then
    (false, "Password must contain at least one special character")
  else
    (true, "")

/-! ### JWT token codec (backend/app/core/security.py)

The jose library is an external dependency; it is modelled from its
contract: encoding attaches the signing key and algorithm to the payload,
decoding checks the key and the accepted algorithm list and then the exp
claim against the current time, reporting an expired-signature error for a
stale token and an invalid-signature error for a key or algorithm
mismatch. -/

/-- Configuration values read from app.config.settings. -/
structure Settings where
  JWT_SECRET_KEY : String
  JWT_ALGORITHM : String
  ACCESS_TOKEN_EXPIRE_MINUTES : Nat
  REFRESH_TOKEN_EXPIRE_DAYS : Nat
deriving DecidableEq

/-- Payload dict of create_access_token. -/
structure AccessPayload where
  sub : String
  email : String
  org_id : String
  role : String
  permissions : List String
  type : String
  exp : Nat
  iat : Nat
deriving DecidableEq

/-- Payload dict of create_refresh_token. -/
structure RefreshPayload where
  sub : String
  session_id : String
  type : String
  exp : Nat
  iat : Nat
deriving DecidableEq

/-- A JWT payload is one of the two dict shapes the module produces. -/
inductive JwtPayload where
  | access (p : AccessPayload)
  | refresh (p : RefreshPayload)
deriving DecidableEq

/-- The exp claim of a payload. -/
def JwtPayload.expClaim : JwtPayload → Nat
  | .access p => p.exp
  | .refresh p => p.exp

/-- The type claim of a payload, payload.get("type"). -/
def JwtPayload.typeClaim : JwtPayload → String
  | .access p => p.type
  | .refresh p => p.type

/-- Modelled from the jose contract: an encoded token carries its payload,
the signing key and the algorithm identifier. -/
structure Jwt where
  payload : JwtPayload
  key : String
  alg : String
deriving DecidableEq

/-- Failure modes of jose jwt.decode relevant here; both surface as
JWTError in the Python code. -/
inductive JoseError where
  | expiredSignature
  | invalidSignature
deriving DecidableEq

/-- Modelled from the jose contract: jwt.encode. -/
def jose_encode (payload : JwtPayload) (key : String) (alg : String) : Jwt :=
  { payload := payload, key := key, alg := alg }

/-- Modelled from the jose contract: jwt.decode verifies the signature
(key and accepted algorithms) and then the exp claim against the time of
the call. -/
def jose_decode (t : Jwt) (key : String) (algorithms : List String)
    (now : Nat) : Except JoseError JwtPayload :=
  if t.key = key ∧ t.alg ∈ algorithms then
    if t.payload.expClaim ≤ now then .error .expiredSignature
    else .ok t.payload
  else .error .invalidSignature

/-- Embedding of create_access_token, with the current time and the
optional expires_delta (in seconds) passed explicitly. -/
def create_access_token (s : Settings) (user_id email org_id role : String)
    (permissions : List String) (expires_delta : Option Nat) (now : Nat) :
    Jwt :=
  let expire := now + expires_delta.getD (s.ACCESS_TOKEN_EXPIRE_MINUTES * 60)
  jose_encode
    (.access
      { sub := user_id, email := email, org_id := org_id, role := role,
        permissions := permissions, type := "access", exp := expire,
        iat := now })
    s.JWT_SECRET_KEY s.JWT_ALGORITHM

/-- Embedding of create_refresh_token; generated_id stands for the ULID
drawn when no session id is supplied. -/
def create_refresh_token (s : Settings) (user_id : String)
    (session_id : Option String) (generated_id : String)
    (expires_delta : Option Nat) (now : Nat) : Jwt × String :=
  let expire := now + expires_delta.getD (s.REFRESH_TOKEN_EXPIRE_DAYS * 86400)
  let sid := session_id.getD generated_id
  (jose_encode
    (.refresh
      { sub := user_id, session_id := sid, type := "refresh", exp := expire,
        iat := now })
    s.JWT_SECRET_KEY s.JWT_ALGORITHM, sid)

/-- TokenPair model from security.py. -/
structure TokenPair where
  access_token : Jwt
  refresh_token : Jwt
  token_type : String
  expires_in : Nat
deriving DecidableEq

/-- Embedding of create_token_pair. -/
def create_token_pair (s : Settings) (user_id email org_id role : String)
    (permissions : List String) (generated_session_id : String) (now : Nat) :
    TokenPair × String :=
  let access := create_access_token s user_id email org_id role permissions
    none now
  let pr := create_refresh_token s user_id none generated_session_id none now
  ({ access_token := access, refresh_token := pr.1, token_type := "bearer",
     expires_in := s.ACCESS_TOKEN_EXPIRE_MINUTES * 60 }, pr.2)

/-- Embedding of decode_access_token: decode with the configured key and
algorithm, return None on any JWTError, on a wrong type claim, or when the
payload does not fit the TokenPayload model. -/
def decode_access_token (s : Settings) (token : Jwt) (now : Nat) :
    Option AccessPayload :=
  match jose_decode token s.JWT_SECRET_KEY [s.JWT_ALGORITHM] now with
  | .error _ => none
  | .ok pl =>
    match pl with
    | .access p => if p.type = "access" then some p else none
    | .refresh _ => none

/-- Embedding of decode_refresh_token, symmetric to decode_access_token. -/
def decode_refresh_token (s : Settings) (token : Jwt) (now : Nat) :
    Option RefreshPayload :=
  match jose_decode token s.JWT_SECRET_KEY [s.JWT_ALGORITHM] now with
  | .error _ => none
  | .ok pl =>
    match pl with
    | .refresh p => if p.type = "refresh" then some p else none
    | .access _ => none

/-- A concrete settings record used by witnesses. -/
def sampleSettings : Settings :=
  { JWT_SECRET_KEY := "0123456789abcdef0123456789abcdef",
    JWT_ALGORITHM := "HS256",
    ACCESS_TOKEN_EXPIRE_MINUTES := 15,
    REFRESH_TOKEN_EXPIRE_DAYS := 7 }

/-! ### Resilient database client (backend/app/database.py)

The connection handle is abstracted to Option Unit (present or discarded);
the outcome of the underlying libsql call on the n-th attempt is supplied
as a function from the attempt index, and the uniform jitter samples drawn
by random.uniform(0, 0.5) are supplied likewise.  Sleep durations are
rationals measured in seconds. -/

/-- CONNECTION_ERROR_PATTERNS from class Database. -/
def CONNECTION_ERROR_PATTERNS : List String :=
  [ "connection", "forcibly closed", "os error 10054", "os error 10053",
    "hrana", "stream error", "http error", "network", "timeout",
    "reset by peer", "broken pipe", "connection refused", "eof", "closed" ]

/-- Python substring containment pattern in s, over character lists. -/
def str_contains_sub (s pat : String) : Bool :=
  s.data.tails.any (fun t => pat.data.isPrefixOf t)

/-- Python str.lower over the character list. -/
def str_lower (s : String) : String := String.mk (s.data.map Char.toLower)

/-- Embedding of Database._is_connection_error: the lowered error message
contains one of the connection error patterns. -/
def is_connection_error (msg : String) : Bool :=
  CONNECTION_ERROR_PATTERNS.any (fun p => str_contains_sub (str_lower msg) p)

/-- Observable outcome of Database.execute: the returned or raised value,
the number of times the underlying call ran, the pre-jitter backoff sleeps
and the jitter sleeps in order, the number of times the handle was
discarded, and the final handle state. -/
structure ExecResult (α : Type) where
  result : Except String α
  attempts : Nat
  baseSleeps : List ℚ
  jitterSleeps : List ℚ
  discards : Nat
  conn : Option Unit

/-- The retry loop of Database.execute.  remaining counts iterations left
of the Python for attempt in range(retries) loop; attempt =
retries - remaining.  On a connection-class error the handle is discarded
and, when the attempt is not the last, the loop sleeps
0.5 * 2 ^ attempt + jitter before retrying; a non-connection error is
raised at once; an exhausted loop raises the last stored error. -/
def execLoop {α : Type} (transport : Nat → Except String α)
    (jitter : Nat → ℚ) (retries : Nat) :
    Nat → Option String → Nat → List ℚ → List ℚ → Nat → Option Unit →
    ExecResult α
  | 0, lastErr, attempts, bs, js, d, conn =>
    { result := .error (lastErr.getD "Database connection failed after retries"),
      attempts := attempts, baseSleeps := bs.reverse,
      jitterSleeps := js.reverse, discards := d, conn := conn }
  | remaining + 1, lastErr, attempts, bs, js, d, _ =>
    let attempt := retries - (remaining + 1)
    -- conn = self.connect(): the handle is re-established if discarded
    let conn : Option Unit := some ()
    match transport attempt with
    | .ok v =>
      { result := .ok v, attempts := attempts + 1, baseSleeps := bs.reverse,
        jitterSleeps := js.reverse, discards := d, conn := conn }
    | .error e =>
      if is_connection_error e then
        -- discard the handle to force a reconnect on the next attempt
        if remaining > 0 then
          let base : ℚ := (1 / 2) * 2 ^ attempt
          execLoop transport jitter retries remaining (some e) (attempts + 1)
            (base :: bs) (jitter attempt :: js) (d + 1) none
        else
          execLoop transport jitter retries remaining (some e) (attempts + 1)
            bs js (d + 1) none
      else
        { result := .error e, attempts := attempts + 1,
          baseSleeps := bs.reverse, jitterSleeps := js.reverse, discards := d,
          conn := conn }

/-- Embedding of Database.execute with its retry budget (default 3). -/
def Database.execute {α : Type} (transport : Nat → Except String α)
    (jitter : Nat → ℚ) (retries : Nat) (conn : Option Unit) : ExecResult α :=
  execLoop transport jitter retries retries none 0 [] [] 0 conn

/-- Observable outcome of a single-shot Database operation: the returned or
raised value, the final handle state, and how many times the underlying
operation ran. -/
structure OnceResult where
  result : Except String Unit
  conn : Option Unit
  attempts : Nat

/-- Embedding of Database.commit: skipped without a handle; the underlying
commit runs once; every error is re-raised, and a connection-class error
additionally discards the handle. -/
def Database.commit (conn : Option Unit) (op : Except String Unit) :
    OnceResult :=
  match conn with
  | none => { result := .ok (), conn := none, attempts := 0 }
  | some _ =>
    match op with
    | .ok _ => { result := .ok (), conn := some (), attempts := 1 }
    | .error e =>
      { result := .error e,
        conn := if is_connection_error e then none else some (),
        attempts := 1 }

/-- Embedding of Database.rollback: skipped without a handle; the underlying
rollback runs once; every error is caught and logged, and a
connection-class error discards the handle; nothing is re-raised. -/
def Database.rollback (conn : Option Unit) (op : Except String Unit) :
    OnceResult :=
  match conn with
  | none => { result := .ok (), conn := none, attempts := 0 }
  | some _ =>
    match op with
    | .ok _ => { result := .ok (), conn := some (), attempts := 1 }
    | .error e =>
      { result := .ok (),
        conn := if is_connection_error e then none else some (),
        attempts := 1 }

/-- Embedding of Database.sync: skipped without a handle; on a
connection-class failure of the first sync the client reconnects and runs
sync a second time, and every error of either attempt is caught and
logged; no error ever reaches the caller.  op2 is the outcome the second
sync attempt would have. -/
def Database.sync (conn : Option Unit) (op : Except String Unit)
    (op2 : Except String Unit) : OnceResult :=
  match conn with
  | none => { result := .ok (), conn := none, attempts := 0 }
  | some _ =>
    match op with
    | .ok _ => { result := .ok (), conn := some (), attempts := 1 }
    | .error e =>
      if is_connection_error e then
        -- _reconnect establishes a fresh handle, then sync runs again;
        -- the outcome of op2 is logged but never raised
        { result := .ok (), conn := some (), attempts := 2 }
      else
        { result := .ok (), conn := some (), attempts := 1 }

/-! ### Authentication endpoints (backend/app/api/v1/auth.py)

Rows model the columns the claims concern (timestamps, phone numbers,
client metadata and the HTTP detail dicts are collapsed to the essential
fields, with the detail reduced to the human-readable message).  The
generated ULIDs, random tokens and the current time are passed
explicitly.  A value that the code could persist either verbatim or
digested is modelled by the Stored type, whose sha256 constructor stands
for the SHA-256 hex digest of the wrapped value. -/

/-- A value as persisted in a database column: the raw value or its
SHA-256 hex digest, kept symbolic. -/
inductive Stored (α : Type) where
  | raw (value : α)
  | sha256 (value : α)
deriving DecidableEq

/-- Embedding of hash_token: the SHA-256 hex digest of the token. -/
def hash_token (token : String) : Stored String := .sha256 token

/-- Embedding of generate_reset_token, with the random url-safe token
passed explicitly: returns (plain_token, hashed_token). -/
def generate_reset_token (random_token : String) : String × Stored String :=
  (random_token, hash_token random_token)

/-- Columns of the users table used by the auth endpoints. -/
structure UserRow where
  id : String
  email : String
  password_hash : String
  first_name : String
  last_name : String
  role_id : String
  organization_id : String
  is_active : Bool
  is_verified : Bool
deriving DecidableEq

/-- Columns of the roles table used by the auth endpoints. -/
structure RoleRow where
  id : String
  name : String
deriving DecidableEq

/-- Columns of the organizations table used by the auth endpoints. -/
structure OrgRow where
  id : String
  name : String
  slug : String
deriving DecidableEq

/-- Columns of the sessions table used by the auth endpoints. -/
structure SessionRow where
  id : String
  user_id : String
  refresh_token_hash : Stored Jwt
  is_active : Bool
  expires_at : Nat
deriving DecidableEq

/-- Columns of the password_reset_tokens table. -/
structure ResetTokenRow where
  id : String
  user_id : String
  token_hash : Stored String
  expires_at : Nat
  is_used : Bool
deriving DecidableEq

/-- The database tables the auth endpoints read and write. -/
structure DbState where
  users : List UserRow
  roles : List RoleRow
  organizations : List OrgRow
  sessions : List SessionRow
  password_reset_tokens : List ResetTokenRow
deriving DecidableEq

/-- A FastAPI HTTPException as raised by an endpoint, with the detail
reduced to its message string. -/
structure HTTPError where
  status_code : Nat
  detail : String
deriving DecidableEq

/-- TokenResponse schema. -/
structure TokenResponse where
  access_token : Jwt
  refresh_token : Jwt
  token_type : String
  expires_in : Nat
deriving DecidableEq

/-- MessageResponse schema. -/
structure MessageResponse where
  message : String
deriving DecidableEq

/-- RegisterRequest schema (phone omitted: unused by the logic). -/
structure RegisterRequest where
  email : String
  password : String
  first_name : String
  last_name : String
  organization_name : Option String
  organization_id : Option String
deriving DecidableEq

/-- Python s.replace(" ", "-") over the character list. -/
def replace_spaces (s : String) : String :=
  String.mk (s.data.map (fun c => if c == ' ' then '-' else c))

/-- Embedding of the register endpoint.  The org branch returns the chosen
organization id, the role name, and the organizations table after any
insert. -/
def register (s : Settings) (st : DbState) (req : RegisterRequest)
    (gen_org_id gen_slug_sfx gen_user_id gen_session_id : String)
    (now : Nat) : Except HTTPError (DbState × TokenResponse) :=
  -- check if email already exists
  if (st.users.find? (fun u => u.email == str_lower req.email)).isSome then
    .error { status_code := 409,
             detail := "User with email \x27" ++ req.email ++
               "\x27 already exists" }
  else
  -- validate password strength
  let v := validate_password_strength req.password
  if v.1 = false then
    .error { status_code := 422, detail := v.2 }
  else
  -- create or get organization; default role technician when joining
  let branch : String × String × List OrgRow :=
    if (req.organization_name.getD "") ≠ "" then
      let oname := req.organization_name.getD ""
      (gen_org_id, Role.ADMIN,
        st.organizations ++
          [{ id := gen_org_id, name := oname,
             slug := replace_spaces (str_lower oname) ++ "-" ++ gen_slug_sfx }])
    else if (req.organization_id.getD "") = "" then
      (gen_org_id, Role.ADMIN,
        st.organizations ++
          [{ id := gen_org_id,
             name := req.first_name ++ "\x27s Organization",
             slug := "org-" ++ gen_slug_sfx }])
    else
      (req.organization_id.getD "", Role.TECHNICIAN, st.organizations)
  let org_id := branch.1
  let role := branch.2.1
  -- get role id, or fall back to a synthesized one
  let role_id :=
    ((st.roles.find? (fun r => r.name == role)).map RoleRow.id).getD
      ("role_" ++ role)
  -- create user: the request password itself is stored as password_hash
  let user : UserRow :=
    { id := gen_user_id, email := str_lower req.email,
      password_hash := req.password, first_name := req.first_name,
      last_name := req.last_name, role_id := role_id,
      organization_id := org_id, is_active := true, is_verified := false }
  let permissions := get_role_permissions role
  let pr := create_token_pair s gen_user_id (str_lower req.email) org_id role
    permissions gen_session_id now
  let sessionRow : SessionRow :=
    { id := pr.2, user_id := gen_user_id,
      refresh_token_hash := .raw pr.1.refresh_token, is_active := true,
      expires_at := now + s.REFRESH_TOKEN_EXPIRE_DAYS * 86400 }
  .ok ({ st with users := st.users ++ [user],
                 organizations := branch.2.2,
                 sessions := st.sessions ++ [sessionRow] },
       { access_token := pr.1.access_token,
         refresh_token := pr.1.refresh_token,
         token_type := "bearer", expires_in := pr.1.expires_in })

/-- Embedding of the login endpoint: the SQL join users-roles is the user
lookup by lowered email followed by the role lookup by role_id. -/
def login (s : Settings) (st : DbState) (email password : String)
    (gen_session_id : String) (now : Nat) :
    Except HTTPError (DbState × TokenResponse) :=
  match st.users.find? (fun u => u.email == str_lower email) with
  | none => .error { status_code := 401, detail := "Invalid email or password" }
  | some u =>
    match st.roles.find? (fun r => r.id == u.role_id) with
    | none =>
      .error { status_code := 401, detail := "Invalid email or password" }
    | some r =>
      -- verify password (plain text comparison)
      if password ≠ u.password_hash then
        .error { status_code := 401, detail := "Invalid email or password" }
      else if u.is_active = false then
        .error { status_code := 403, detail := "Account is disabled" }
      else
        let permissions := get_role_permissions r.name
        let pr := create_token_pair s u.id u.email u.organization_id r.name
          permissions gen_session_id now
        let sessionRow : SessionRow :=
          { id := pr.2, user_id := u.id,
            refresh_token_hash := .raw pr.1.refresh_token, is_active := true,
            expires_at := now + s.REFRESH_TOKEN_EXPIRE_DAYS * 86400 }
        .ok ({ st with sessions := st.sessions ++ [sessionRow] },
          { access_token := pr.1.access_token,
            refresh_token := pr.1.refresh_token, token_type := "bearer",
            expires_in := pr.1.expires_in })

/-- The joined session-user-role lookup of the refresh endpoint. -/
def refresh_lookup (st : DbState) (pl : RefreshPayload) :
    Option (SessionRow × UserRow × RoleRow) :=
  match st.sessions.find?
      (fun x => x.id == pl.session_id && x.user_id == pl.sub) with
  | none => none
  | some sess =>
    match st.users.find? (fun u => u.id == pl.sub) with
    | none => none
    | some u =>
      match st.roles.find? (fun r => r.id == u.role_id) with
      | none => none
      | some r => some (sess, u, r)

/-- Embedding of the refresh endpoint: decode, look up the session, reject
a revoked session, otherwise rotate (deactivate the presented session and
insert one new active session) and mint a fresh pair. -/
def refresh_token (s : Settings) (st : DbState) (token : Jwt)
    (gen_session_id : String) (now : Nat) :
    Except HTTPError (DbState × TokenResponse) :=
  match decode_refresh_token s token now with
  | none => .error { status_code := 401, detail := "Invalid refresh token" }
  | some pl =>
    match refresh_lookup st pl with
    | none => .error { status_code := 401, detail := "Session not found" }
    | some (sess, u, r) =>
      if sess.is_active = false then
        .error { status_code := 401, detail := "Session has been revoked" }
      else
        let permissions := get_role_permissions r.name
        let pr := create_token_pair s pl.sub u.email u.organization_id r.name
          permissions gen_session_id now
        let newRow : SessionRow :=
          { id := pr.2, user_id := pl.sub,
            refresh_token_hash := .raw pr.1.refresh_token, is_active := true,
            expires_at := now + s.REFRESH_TOKEN_EXPIRE_DAYS * 86400 }
        .ok ({ st with sessions :=
            (st.sessions.map (fun x =>
              if x.id == sess.id then { x with is_active := false } else x)) ++
            [newRow] },
          { access_token := pr.1.access_token,
            refresh_token := pr.1.refresh_token, token_type := "bearer",
            expires_in := pr.1.expires_in })

/-- Embedding of the forgot-password endpoint: always answers with the
same message; when the user exists a reset row is inserted storing the
plain token. -/
def forgot_password (st : DbState) (email : String)
    (gen_plain_token gen_row_id : String) (now : Nat) :
    DbState × MessageResponse :=
  match st.users.find? (fun u => u.email == str_lower email) with
  | none => (st, { message := "If the email exists, a reset link will be sent" })
  | some u =>
    let pr := generate_reset_token gen_plain_token
    -- the digest pr.2 is computed but the insert stores the plain token
    let row : ResetTokenRow :=
      { id := gen_row_id, user_id := u.id, token_hash := .raw pr.1,
        expires_at := now + 3600, is_used := false }
    ({ st with password_reset_tokens := st.password_reset_tokens ++ [row] },
     { message := "If the email exists, a reset link will be sent" })

/-- Embedding of the reset-password endpoint: the token row is matched by
direct equality of the token_hash column against the presented token. -/
def reset_password (st : DbState) (token new_password : String) (now : Nat) :
    Except HTTPError (DbState × MessageResponse) :=
  let v := validate_password_strength new_password
  if v.1 = false then
    .error { status_code := 422, detail := v.2 }
  else
    match st.password_reset_tokens.find?
        (fun r => r.token_hash == Stored.raw token) with
    | none =>
      .error { status_code := 400, detail := "Invalid or expired reset token" }
    | some row =>
      if row.is_used || decide (row.expires_at < now) then
        .error { status_code := 400,
                 detail := "Invalid or expired reset token" }
      else
        .ok ({ st with
          users := st.users.map (fun u =>
            if u.id == row.user_id then { u with password_hash := new_password }
            else u),
          password_reset_tokens := st.password_reset_tokens.map (fun r =>
            if r.id == row.id then { r with is_used := true } else r),
          sessions := st.sessions.map (fun x =>
            if x.user_id == row.user_id then { x with is_active := false }
            else x) },
          { message :=
              "Password reset successfully. Please login with your new password." })

/-- Embedding of the change-password endpoint. -/
def change_password (st : DbState)
    (user_id current_password new_password : String) :
    Except HTTPError (DbState × MessageResponse) :=
  match st.users.find? (fun u => u.id == user_id) with
  | none =>
    .error { status_code := 404,
             detail := "User with ID \x27" ++ user_id ++ "\x27 not found" }
  | some u =>
    -- verify current password (plain text comparison)
    if current_password ≠ u.password_hash then
      .error { status_code := 400, detail := "Current password is incorrect" }
    else
      let v := validate_password_strength new_password
      if v.1 = false then
        .error { status_code := 422, detail := v.2 }
      else
        .ok ({ st with users := st.users.map (fun x =>
            if x.id == user_id then { x with password_hash := new_password }
            else x) },
          { message := "Password changed successfully" })

/-- An empty database. -/
def st_empty : DbState :=
  { users := [], roles := [], organizations := [], sessions := [],
    password_reset_tokens := [] }

/-- A database holding only the seeded role catalog rows the witnesses
need. -/
def st_roles : DbState :=
  { users := [], roles := [{ id := "r1", name := "admin" }],
    organizations := [], sessions := [], password_reset_tokens := [] }

/-- A concrete user row used by witnesses. -/
def sample_user : UserRow :=
  { id := "u1", email := "a@x.com", password_hash := "p", first_name := "A",
    last_name := "B", role_id := "r1", organization_id := "o1",
    is_active := true, is_verified := false }

/-- A database holding one user and the role catalog. -/
def st_oneuser : DbState :=
  { users := [sample_user], roles := [{ id := "r1", name := "admin" }],
    organizations := [], sessions := [], password_reset_tokens := [] }

/-- A concrete refresh token for the revoked-session witness. -/
def sample_refresh_tok : Jwt :=
  (create_refresh_token sampleSettings "u1" none "sessOld" none 1000).1

/-- A database whose only session is revoked, for the refresh witness. -/
def st_revoked : DbState :=
  { users := [sample_user], roles := [{ id := "r1", name := "admin" }],
    organizations := [],
    sessions := [{ id := "sessOld", user_id := "u1",
                   refresh_token_hash := .raw sample_refresh_tok,
                   is_active := false, expires_at := 9999 }],
    password_reset_tokens := [] }

/-- A concrete registration request used by the C1 evaluation. -/
def sample_register_request : RegisterRequest :=
  { email := "User@Example.com", password := "Secret123!", first_name := "A",
    last_name := "B", organization_name := some "Acme",
    organization_id := none }

end GG

namespace GG

/-! ### Claim theorems for the permission registry and password policy -/

/-- Any role the hierarchy ranks has rank between 1 and 4. -/
lemma roleHierarchy_bounds (r : String) (k : Nat) (h : roleHierarchy r = some k) :
    1 ≤ k ∧ k ≤ 4 := by
  unfold roleHierarchy at h
  split_ifs at h <;> (injection h with h; omega)

/-- C2: can_manage_role agrees with the strict order on hierarchy ranks
(super_admin=1, admin=2, manager=3, technician=4); an unrecognized target
role is never manageable, an unrecognized actor manages nothing, and the
concrete facts of the claim hold. -/
theorem C2_can_manage_role_spec :
    can_manage_role "admin" "super_admin" = false ∧
    can_manage_role "admin" "manager" = true ∧
    (∀ t, can_manage_role "technician" t = false) ∧
    (∀ r, can_manage_role r r = false) ∧
    (∀ a t, roleHierarchy t = none → can_manage_role a t = false) ∧
    (∀ a t, roleHierarchy a = none → can_manage_role a t = false) ∧
    (∀ a t ra rt, roleHierarchy a = some ra → roleHierarchy t = some rt →
      can_manage_role a t = decide (ra < rt)) := by
  refine ⟨by decide, by decide, ?_, ?_, ?_, ?_, ?_⟩
  · intro t
    have hm : roleHierarchy "technician" = some 4 := by decide
    unfold can_manage_role
    rw [hm]
    rcases h : roleHierarchy t with _ | k
    · simp
    · have hk := (roleHierarchy_bounds t k h).2
      simp only [Option.getD_some]
      simp
      omega
  · intro r
    unfold can_manage_role
    rcases h : roleHierarchy r with _ | k <;> simp
  · intro a t ht
    unfold can_manage_role
    rw [ht]
    simp
  · intro a t ha
    unfold can_manage_role
    rw [ha]
    rcases h : roleHierarchy t with _ | k
    · simp
    · have hk := (roleHierarchy_bounds t k h).2
      simp only [Option.getD_some]
      simp
      omega
  · intro a t ra rt ha ht
    unfold can_manage_role
    rw [ha, ht]
    simp

/-- Closed instance of C2_can_manage_role_spec at a concrete pair of roles. -/
theorem C2_can_manage_role_witness :
    can_manage_role "super_admin" "admin" = decide ((1 : Nat) < 2) :=
  C2_can_manage_role_spec.2.2.2.2.2.2 "super_admin" "admin" 1 2 (by decide) (by decide)

/-- C3: has_permission grants exactly when the universal wildcard is held,
the required permission is held exactly, or the required permission contains
a colon and the resource wildcard built from its segment before the first
colon is held; nothing else grants. -/
theorem C3_has_permission_spec :
    ∀ (P : List String) (q : String),
      has_permission P q = true ↔
        ("*" ∈ P ∨ q ∈ P ∨
          (q.data.contains ':' = true ∧ (resource_of q ++ ":*") ∈ P)) := by
  intro P q
  unfold has_permission
  split_ifs <;> simp_all

/-- Closed instance of C3_has_permission_spec: the universal wildcard grants. -/
theorem C3_has_permission_witness :
    has_permission ["*"] "equipment:read" = true :=
  (C3_has_permission_spec ["*"] "equipment:read").mpr (Or.inl (by decide))

/-- C8: a password validates exactly when it has length at least 8 and
contains an uppercase letter, a lowercase letter, a digit and a special
character; failures report the first violated rule in the order length,
uppercase, lowercase, digit, symbol; the two concrete examples behave as
claimed. -/
theorem C8_validate_password_strength_spec :
    (∀ p, (validate_password_strength p).1 = true ↔
      (8 ≤ p.length ∧ str_has pyIsUpper p = true ∧ str_has pyIsLower p = true ∧
        str_has pyIsDigit p = true ∧ str_has isSpecial p = true)) ∧
    (∀ p, p.length < 8 →
      validate_password_strength p =
        (false, "Password must be at least 8 characters long")) ∧
    (∀ p, 8 ≤ p.length → str_has pyIsUpper p = false →
      validate_password_strength p =
        (false, "Password must contain at least one uppercase letter")) ∧
    (∀ p, 8 ≤ p.length → str_has pyIsUpper p = true →
      str_has pyIsLower p = false →
      validate_password_strength p =
        (false, "Password must contain at least one lowercase letter")) ∧
    (∀ p, 8 ≤ p.length → str_has pyIsUpper p = true →
      str_has pyIsLower p = true → str_has pyIsDigit p = false →
      validate_password_strength p =
        (false, "Password must contain at least one digit")) ∧
    (∀ p, 8 ≤ p.length → str_has pyIsUpper p = true →
      str_has pyIsLower p = true → str_has pyIsDigit p = true →
      str_has isSpecial p = false →
      validate_password_strength p =
        (false, "Password must contain at least one special character")) ∧
    validate_password_strength "Abc12345" =
      (false, "Password must contain at least one special character") ∧
    validate_password_strength "abc" =
      (false, "Password must be at least 8 characters long") := by
  refine ⟨?_, ?_, ?_, ?_, ?_, ?_, by decide, by decide⟩
  · intro p
    unfold validate_password_strength
    split_ifs <;> simp_all
  · intro p h
    unfold validate_password_strength
    split_ifs <;> simp_all
  · intro p h h2
    unfold validate_password_strength
    split_ifs <;> simp_all <;> omega
  · intro p h h2 h3
    unfold validate_password_strength
    split_ifs <;> simp_all <;> omega
  · intro p h h2 h3 h4
    unfold validate_password_strength
    split_ifs <;> simp_all <;> omega
  · intro p h h2 h3 h4 h5
    unfold validate_password_strength
    split_ifs <;> simp_all <;> omega

/-- Closed instance of C8_validate_password_strength_spec: a fully compliant
password validates. -/
theorem C8_validate_password_strength_witness :
    (validate_password_strength "Abc123!?").1 = true :=
  (C8_validate_password_strength_spec.1 "Abc123!?").mpr (by decide)

/-! ### Claim theorem for the token codec -/

/-- C5: decoding a freshly created access token before its expiry returns
the original claim fields with type "access"; at or after expiry the
underlying decode reports an expired signature and decode_access_token
fails. -/
theorem C5_access_token_roundtrip :
    ∀ (s : Settings) (uid email org role : String) (perms : List String)
      (delta : Option Nat) (now now2 : Nat),
      (now2 < now + delta.getD (s.ACCESS_TOKEN_EXPIRE_MINUTES * 60) →
        decode_access_token s
          (create_access_token s uid email org role perms delta now) now2 =
          some { sub := uid, email := email, org_id := org, role := role,
                 permissions := perms, type := "access",
                 exp := now + delta.getD (s.ACCESS_TOKEN_EXPIRE_MINUTES * 60),
                 iat := now }) ∧
      (now + delta.getD (s.ACCESS_TOKEN_EXPIRE_MINUTES * 60) ≤ now2 →
        jose_decode (create_access_token s uid email org role perms delta now)
          s.JWT_SECRET_KEY [s.JWT_ALGORITHM] now2 =
          .error .expiredSignature ∧
        decode_access_token s
          (create_access_token s uid email org role perms delta now) now2 =
          none) := by
  intro s uid email org role perms delta now now2
  constructor
  · intro h
    have hne : ¬ (now + delta.getD (s.ACCESS_TOKEN_EXPIRE_MINUTES * 60) ≤ now2) := by
      omega
    simp [decode_access_token, create_access_token, jose_encode, jose_decode,
      JwtPayload.expClaim, hne]
  · intro h
    simp [decode_access_token, create_access_token, jose_encode, jose_decode,
      JwtPayload.expClaim, h]

/-- Closed instance of C5_access_token_roundtrip at a concrete claim set and
time before expiry. -/
theorem C5_access_token_roundtrip_witness :
    decode_access_token sampleSettings
      (create_access_token sampleSettings "u1" "u1@example.com" "org1"
        "admin" ["*"] none 1000) 1001 =
      some { sub := "u1", email := "u1@example.com", org_id := "org1",
             role := "admin", permissions := ["*"], type := "access",
             exp := 1900, iat := 1000 } :=
  (C5_access_token_roundtrip sampleSettings "u1" "u1@example.com" "org1"
    "admin" ["*"] none 1000 1001).1 (by decide)

/-! ### Claim theorems for the database client -/

/-- C6: with retry budget 3 and a transport failing the first two calls
with a connection reset, execute succeeds on the third attempt after
discarding the handle twice and sleeping the pre-jitter backoffs
0.5 * 2 ^ 0 and 0.5 * 2 ^ 1, totalling at least 1.5 seconds; a
non-connection error propagates after exactly one attempt with no sleep;
with the budget exhausted by connection errors the last error propagates. -/
theorem C6_execute_retry_spec :
    (∀ (jitter : Nat → ℚ) (conn₀ : Option Unit),
      Database.execute
        (fun n => if n < 2 then .error "connection reset" else .ok 1)
        jitter 3 conn₀ =
        { result := .ok 1, attempts := 3,
          baseSleeps := [1 / 2 * 2 ^ 0, 1 / 2 * 2 ^ 1],
          jitterSleeps := [jitter 0, jitter 1], discards := 2,
          conn := some () } ∧
      (3 / 2 : ℚ) ≤ ([1 / 2 * 2 ^ 0, 1 / 2 * 2 ^ 1] : List ℚ).sum) ∧
    (∀ (transport : Nat → Except String Nat) (jitter : Nat → ℚ)
      (retries : Nat) (conn₀ : Option Unit) (e : String),
      1 ≤ retries → transport 0 = .error e → is_connection_error e = false →
      (Database.execute transport jitter retries conn₀).result = .error e ∧
      (Database.execute transport jitter retries conn₀).attempts = 1 ∧
      (Database.execute transport jitter retries conn₀).baseSleeps = [] ∧
      (Database.execute transport jitter retries conn₀).discards = 0) ∧
    (∀ (jitter : Nat → ℚ) (conn₀ : Option Unit) (e0 e1 e2 : String),
      is_connection_error e0 = true → is_connection_error e1 = true →
      is_connection_error e2 = true →
      Database.execute
        (fun n => (.error (if n = 0 then e0 else if n = 1 then e1 else e2) :
          Except String Nat))
        jitter 3 conn₀ =
        { result := .error e2, attempts := 3,
          baseSleeps := [1 / 2 * 2 ^ 0, 1 / 2 * 2 ^ 1],
          jitterSleeps := [jitter 0, jitter 1], discards := 3,
          conn := none }) := by
  refine ⟨?_, ?_, ?_⟩
  · intro jitter conn₀
    refine ⟨rfl, by norm_num⟩
  · intro transport jitter retries conn₀ e h1 h2 h3
    obtain ⟨r, rfl⟩ : ∃ r, retries = r + 1 := ⟨retries - 1, by omega⟩
    simp [Database.execute, execLoop, Nat.sub_self, h2, h3]
  · intro jitter conn₀ e0 e1 e2 h0 h1 h2
    simp [Database.execute, execLoop, h0, h1, h2]

/-- Closed instance of C6_execute_retry_spec: the reset-twice scenario with
zero jitter. -/
theorem C6_execute_retry_witness :
    Database.execute
      (fun n => if n < 2 then .error "connection reset" else .ok 1)
      (fun _ => (0 : ℚ)) 3 (some ()) =
      { result := .ok 1, attempts := 3,
        baseSleeps := [1 / 2 * 2 ^ 0, 1 / 2 * 2 ^ 1],
        jitterSleeps := [(fun _ => (0 : ℚ)) 0, (fun _ => (0 : ℚ)) 1],
        discards := 2, conn := some () } :=
  (C6_execute_retry_spec.1 (fun _ => (0 : ℚ)) (some ())).1

/-- C7 counterexample: for the connection-class error "connection reset by
peer", sync does not attempt the operation exactly once and does not
re-raise the error; it retries internally and reports success. -/
theorem C7_sync_counterexample :
    is_connection_error "connection reset by peer" = true ∧
    ¬ ((Database.sync (some ()) (.error "connection reset by peer")
          (.error "connection reset by peer")).attempts = 1 ∧
       (Database.sync (some ()) (.error "connection reset by peer")
          (.error "connection reset by peer")).result =
         .error "connection reset by peer") := by
  constructor
  · decide
  · intro h
    have := h.1
    simp [Database.sync, is_connection_error] at this
    revert this
    decide

/-- C7 amended: with a live handle, commit runs the operation once,
re-raises every error and discards the handle exactly on connection-class
failures; rollback runs once and discards the handle on connection-class
failures but swallows the error; sync never propagates an error: on a
connection-class failure it reconnects and runs sync a second time, on any
other failure it returns after one attempt. -/
theorem C7_commit_rollback_sync_spec :
    (∀ e, (Database.commit (some ()) (.error e)).result = .error e ∧
      (Database.commit (some ()) (.error e)).attempts = 1 ∧
      (Database.commit (some ()) (.error e)).conn =
        (if is_connection_error e then none else some ())) ∧
    ((Database.commit (some ()) (.ok ())).result = .ok () ∧
      (Database.commit (some ()) (.ok ())).attempts = 1) ∧
    (∀ e, (Database.rollback (some ()) (.error e)).result = .ok () ∧
      (Database.rollback (some ()) (.error e)).attempts = 1 ∧
      (Database.rollback (some ()) (.error e)).conn =
        (if is_connection_error e then none else some ())) ∧
    (∀ e op2, is_connection_error e = true →
      (Database.sync (some ()) (.error e) op2).result = .ok () ∧
      (Database.sync (some ()) (.error e) op2).attempts = 2 ∧
      (Database.sync (some ()) (.error e) op2).conn = some ()) ∧
    (∀ e op2, is_connection_error e = false →
      (Database.sync (some ()) (.error e) op2).result = .ok () ∧
      (Database.sync (some ()) (.error e) op2).attempts = 1) := by
  refine ⟨?_, ⟨rfl, rfl⟩, ?_, ?_, ?_⟩
  · intro e
    refine ⟨rfl, rfl, rfl⟩
  · intro e
    refine ⟨rfl, rfl, rfl⟩
  · intro e op2 h
    simp [Database.sync, h]
  · intro e op2 h
    simp [Database.sync, h]

/-- Closed instance of C7_commit_rollback_sync_spec: sync on a timeout
failure retries once and reports success. -/
theorem C7_commit_rollback_sync_witness :
    (Database.sync (some ()) (.error "timeout") (.ok ())).result = .ok () ∧
    (Database.sync (some ()) (.error "timeout") (.ok ())).attempts = 2 ∧
    (Database.sync (some ()) (.error "timeout") (.ok ())).conn = some () :=
  C7_commit_rollback_sync_spec.2.2.2.1 "timeout" (.ok ()) (by decide)

/-! ### Claim theorems for the authentication endpoints -/

/-- Forgot-password always answers with the fixed message. -/
lemma forgot_password_message (st : DbState) (email gp gid : String)
    (now : Nat) :
    (forgot_password st email gp gid now).2 =
      { message := "If the email exists, a reset link will be sent" } := by
  cases hf : st.users.find? (fun u => u.email == str_lower email) <;>
    simp [forgot_password, hf]

/-- C9: a forgot-password request for an existing email and one for a
missing email produce the same response, so the response does not reveal
account existence. -/
theorem C9_forgot_password_uniform :
    ∀ (stA : DbState) (emailA gpA gidA : String) (nowA : Nat)
      (stB : DbState) (emailB gpB gidB : String) (nowB : Nat),
      (stA.users.find? (fun u => u.email == str_lower emailA)).isSome = true →
      (stB.users.find? (fun u => u.email == str_lower emailB)).isSome = false →
      (forgot_password stA emailA gpA gidA nowA).2 =
        (forgot_password stB emailB gpB gidB nowB).2 := by
  intro stA emailA gpA gidA nowA stB emailB gpB gidB nowB hA hB
  rw [forgot_password_message, forgot_password_message]

/-- Closed instance of C9_forgot_password_uniform: the one-user database
versus the empty database. -/
theorem C9_forgot_password_uniform_witness :
    (forgot_password st_oneuser "A@X.com" "tok" "rid" 5).2 =
      (forgot_password st_empty "b@y.com" "tok2" "rid2" 6).2 :=
  C9_forgot_password_uniform st_oneuser "A@X.com" "tok" "rid" 5
    st_empty "b@y.com" "tok2" "rid2" 6 (by decide) (by decide)

/-- C1 evaluation at the failing input: registering with password
Secret123! stores the raw password in users.password_hash; login and
change-password then accept exactly that raw string by plain equality,
and reset-password again stores the new password raw.  No bcrypt digest
is ever produced or compared on these paths. -/
theorem C1_plaintext_credentials :
    (register sampleSettings st_roles sample_register_request "org1" "sfx1"
        "user1" "sess1" 1000).map
      (fun r => r.1.users.map UserRow.password_hash) = .ok ["Secret123!"] ∧
    (register sampleSettings st_roles sample_register_request "org1" "sfx1"
        "user1" "sess1" 1000).bind
      (fun r => (login sampleSettings r.1 "user@example.com" "Secret123!"
        "sess2" 2000).map (fun l => l.2.expires_in)) = .ok 900 ∧
    (register sampleSettings st_roles sample_register_request "org1" "sfx1"
        "user1" "sess1" 1000).bind
      (fun r => (change_password r.1 "user1" "Secret123!" "NewSecret1!").map
        (fun c => c.1.users.map UserRow.password_hash)) = .ok ["NewSecret1!"] ∧
    (register sampleSettings st_roles sample_register_request "org1" "sfx1"
        "user1" "sess1" 1000).bind
      (fun r => (reset_password
          (forgot_password r.1 "user@example.com" "tokA" "rid" 1500).1
          "tokA" "NewSecret2!" 1600).map
        (fun c => c.1.users.map UserRow.password_hash)) = .ok ["NewSecret2!"] := by
  refine ⟨rfl, rfl, rfl, rfl⟩

/-- A successful decode of a refresh token pins the token payload. -/
lemma decode_refresh_payload (s : Settings) (tok : Jwt) (now : Nat)
    (pl : RefreshPayload) (h : decode_refresh_token s tok now = some pl) :
    tok.payload = .refresh pl := by
  unfold decode_refresh_token jose_decode at h
  rcases hp : tok.payload with p | p <;> split_ifs at h <;> simp_all

/-- find? over a map by a function that preserves the predicate. -/
lemma find?_map_pres {α : Type} (f : α → α) (p : α → Bool) (l : List α)
    (h : ∀ x, p (f x) = p x) :
    (l.map f).find? p = (l.find? p).map f := by
  induction l with
  | nil => rfl
  | cons a t ih =>
    simp only [List.map_cons, List.find?]
    rw [h a]
    cases hpa : p a
    · simpa using ih
    · rfl

/-- find? over an append when the left part already finds a witness. -/
lemma find?_append_some {α : Type} (p : α → Bool) (l₁ l₂ : List α) (a : α)
    (h : l₁.find? p = some a) : (l₁ ++ l₂).find? p = some a := by
  induction l₁ with
  | nil => simp [List.find?] at h
  | cons b t ih =>
    simp only [List.cons_append, List.find?] at h ⊢
    cases hpb : p b
    · rw [hpb] at h
      exact ih h
    · rw [hpb] at h
      exact h

/-- Inversion of a successful refresh_lookup into its three row lookups. -/
lemma refresh_lookup_inv (st : DbState) (pl : RefreshPayload)
    (sess : SessionRow) (u : UserRow) (r : RoleRow)
    (h : refresh_lookup st pl = some (sess, u, r)) :
    st.sessions.find?
        (fun x => x.id == pl.session_id && x.user_id == pl.sub) = some sess ∧
    st.users.find? (fun x => x.id == pl.sub) = some u ∧
    st.roles.find? (fun x => x.id == u.role_id) = some r := by
  unfold refresh_lookup at h
  split at h
  · simp at h
  rename_i sess' h1
  split at h
  · simp at h
  rename_i u' h2
  split at h
  · simp at h
  rename_i r' h3
  simp only [Option.some.injEq, Prod.mk.injEq] at h
  obtain ⟨hs, hu, hr⟩ := h
  subst hs; subst hu; subst hr
  exact ⟨h1, h2, h3⟩

/-- Inversion of a successful refresh: the presented token decoded, the
lookup found an active session, and the new state deactivates every
session row with the presented id and appends exactly one new active row
holding the raw new refresh token. -/
lemma refresh_ok_inv (s : Settings) (st : DbState) (tok : Jwt)
    (gsid : String) (now : Nat) (st' : DbState) (resp : TokenResponse)
    (h : refresh_token s st tok gsid now = .ok (st', resp)) :
    ∃ pl sess u r,
      decode_refresh_token s tok now = some pl ∧
      refresh_lookup st pl = some (sess, u, r) ∧
      sess.is_active = true ∧
      st'.users = st.users ∧ st'.roles = st.roles ∧
      st'.sessions =
        (st.sessions.map (fun x =>
          if x.id == sess.id then { x with is_active := false } else x)) ++
        [{ id := gsid, user_id := pl.sub,
           refresh_token_hash := Stored.raw resp.refresh_token,
           is_active := true,
           expires_at := now + s.REFRESH_TOKEN_EXPIRE_DAYS * 86400 }] := by
  unfold refresh_token at h
  split at h
  · simp at h
  rename_i pl hd
  split at h
  · simp at h
  rename_i sess u r hl
  split at h
  · simp at h
  rename_i ha
  simp only [Except.ok.injEq, Prod.mk.injEq] at h
  obtain ⟨h1, h2⟩ := h
  subst h1; subst h2
  refine ⟨pl, sess, u, r, hd, hl, ?_, rfl, rfl, rfl⟩
  revert ha
  cases sess.is_active <;> simp

/-- C4: a refresh presenting an inactive session fails with the
session-revoked error and changes nothing; a successful refresh
deactivates the presented session and creates exactly one new active
replacement; replaying the first refresh token after a successful
rotation fails with the session-revoked error. -/
theorem C4_refresh_rotation :
    (∀ (s : Settings) (st : DbState) (tok : Jwt) (gsid : String) (now : Nat)
       (pl : RefreshPayload) (sess : SessionRow) (u : UserRow) (r : RoleRow),
      decode_refresh_token s tok now = some pl →
      refresh_lookup st pl = some (sess, u, r) →
      sess.is_active = false →
      refresh_token s st tok gsid now =
        .error { status_code := 401, detail := "Session has been revoked" }) ∧
    (∀ (s : Settings) (st : DbState) (tok : Jwt) (gsid : String) (now : Nat)
       (st' : DbState) (resp : TokenResponse),
      refresh_token s st tok gsid now = .ok (st', resp) →
      ∃ pl sess u r row,
        decode_refresh_token s tok now = some pl ∧
        refresh_lookup st pl = some (sess, u, r) ∧
        sess.is_active = true ∧
        st'.sessions =
          (st.sessions.map (fun x =>
            if x.id == sess.id then { x with is_active := false } else x)) ++
          [row] ∧
        row.is_active = true ∧ row.id = gsid ∧ row.user_id = pl.sub) ∧
    (∀ (s : Settings) (st : DbState) (tok : Jwt) (gsid gsid2 : String)
       (now now2 : Nat) (st' : DbState) (resp : TokenResponse)
       (pl : RefreshPayload),
      refresh_token s st tok gsid now = .ok (st', resp) →
      decode_refresh_token s tok now2 = some pl →
      refresh_token s st' tok gsid2 now2 =
        .error { status_code := 401, detail := "Session has been revoked" }) := by
  refine ⟨?_, ?_, ?_⟩
  · intro s st tok gsid now pl sess u r hd hl ha
    simp [refresh_token, hd, hl, ha]
  · intro s st tok gsid now st' resp h
    obtain ⟨pl, sess, u, r, hd, hl, ha, hu, hr, hsess⟩ :=
      refresh_ok_inv s st tok gsid now st' resp h
    exact ⟨pl, sess, u, r, _, hd, hl, ha, hsess, rfl, rfl, rfl⟩
  · intro s st tok gsid gsid2 now now2 st' resp pl h hd2
    obtain ⟨pl₁, sess, u, r, hd₁, hl₁, hact, hu, hr, hsess⟩ :=
      refresh_ok_inv s st tok gsid now st' resp h
    have hp₁ := decode_refresh_payload s tok now pl₁ hd₁
    have hp₂ := decode_refresh_payload s tok now2 pl hd2
    have hpl : pl = pl₁ := by
      rw [hp₁] at hp₂
      injection hp₂ with hp₂
      exact hp₂.symm
    subst hpl
    obtain ⟨hs, hu', hr'⟩ := refresh_lookup_inv st pl sess u r hl₁
    have hpres : ∀ x : SessionRow,
        ((fun y : SessionRow => y.id == pl.session_id && y.user_id == pl.sub)
          (if x.id == sess.id then { x with is_active := false } else x)) =
        (x.id == pl.session_id && x.user_id == pl.sub) := by
      intro x
      by_cases hx : (x.id == sess.id) = true <;> simp [hx]
    have hfind : st'.sessions.find?
        (fun x => x.id == pl.session_id && x.user_id == pl.sub) =
        some { sess with is_active := false } := by
      rw [hsess]
      apply find?_append_some
      rw [find?_map_pres _ _ _ hpres, hs]
      simp
    have hlook2 : refresh_lookup st' pl =
        some ({ sess with is_active := false }, u, r) := by
      simp only [refresh_lookup, hfind, hu, hu', hr, hr']
    simp [refresh_token, hd2, hlook2]

/-- Closed instance of C4_refresh_rotation: refreshing against a revoked
session row fails with the session-revoked error. -/
theorem C4_refresh_rotation_witness :
    refresh_token sampleSettings st_revoked sample_refresh_tok "sessNew"
      2000 =
      .error { status_code := 401, detail := "Session has been revoked" } :=
  C4_refresh_rotation.1 sampleSettings st_revoked sample_refresh_tok
    "sessNew" 2000
    { sub := "u1", session_id := "sessOld", type := "refresh",
      exp := 1000 + 7 * 86400, iat := 1000 }
    { id := "sessOld", user_id := "u1",
      refresh_token_hash := .raw sample_refresh_tok, is_active := false,
      expires_at := 9999 }
    sample_user { id := "r1", name := "admin" } (by decide) (by decide)
    (by decide)

/-- A successful register appends exactly one session row and stores the
raw refresh token in the refresh_token_hash column. -/
lemma register_ok_inv (s : Settings) (st : DbState) (req : RegisterRequest)
    (a b c d : String) (now : Nat) (st' : DbState) (resp : TokenResponse)
    (h : register s st req a b c d now = .ok (st', resp)) :
    ∃ row, st'.sessions = st.sessions ++ [row] ∧
      row.refresh_token_hash = Stored.raw resp.refresh_token ∧
      row.is_active = true := by
  simp only [register] at h
  split at h
  · simp at h
  split at h
  · simp at h
  simp only [Except.ok.injEq, Prod.mk.injEq] at h
  obtain ⟨h1, h2⟩ := h
  subst h1; subst h2
  exact ⟨_, rfl, rfl, rfl⟩

/-- A successful login appends exactly one session row and stores the raw
refresh token in the refresh_token_hash column. -/
lemma login_ok_inv (s : Settings) (st : DbState) (email password gsid : String)
    (now : Nat) (st' : DbState) (resp : TokenResponse)
    (h : login s st email password gsid now = .ok (st', resp)) :
    ∃ row, st'.sessions = st.sessions ++ [row] ∧
      row.refresh_token_hash = Stored.raw resp.refresh_token ∧
      row.is_active = true := by
  unfold login at h
  split at h
  · simp at h
  rename_i u hu
  split at h
  · simp at h
  rename_i r hr
  split at h
  · simp at h
  split at h
  · simp at h
  simp only [Except.ok.injEq, Prod.mk.injEq] at h
  obtain ⟨h1, h2⟩ := h
  subst h1; subst h2
  exact ⟨_, rfl, rfl, rfl⟩

/-- C10: register, login and refresh insert the raw refresh token into
sessions.refresh_token_hash; forgot-password inserts the plain reset token
(not its SHA-256 digest from hash_token) into
password_reset_tokens.token_hash; reset-password matches the stored
token_hash by direct equality against the presented plain token, so a
stored digest never matches the plain token while a stored plain token
does. -/
theorem C10_tokens_stored_verbatim :
    (∀ (s : Settings) (st : DbState) (req : RegisterRequest)
       (a b c d : String) (now : Nat) (st' : DbState) (resp : TokenResponse),
      register s st req a b c d now = .ok (st', resp) →
      ∃ row, st'.sessions = st.sessions ++ [row] ∧
        row.refresh_token_hash = Stored.raw resp.refresh_token ∧
        row.is_active = true) ∧
    (∀ (s : Settings) (st : DbState) (email password gsid : String)
       (now : Nat) (st' : DbState) (resp : TokenResponse),
      login s st email password gsid now = .ok (st', resp) →
      ∃ row, st'.sessions = st.sessions ++ [row] ∧
        row.refresh_token_hash = Stored.raw resp.refresh_token ∧
        row.is_active = true) ∧
    (∀ (s : Settings) (st : DbState) (tok : Jwt) (gsid : String) (now : Nat)
       (st' : DbState) (resp : TokenResponse),
      refresh_token s st tok gsid now = .ok (st', resp) →
      ∃ prev row, st'.sessions = prev ++ [row] ∧
        row.refresh_token_hash = Stored.raw resp.refresh_token ∧
        row.is_active = true) ∧
    (∀ (st : DbState) (email gp gid : String) (now : Nat) (u : UserRow),
      st.users.find? (fun x => x.email == str_lower email) = some u →
      (forgot_password st email gp gid now).1.password_reset_tokens =
        st.password_reset_tokens ++
          [{ id := gid, user_id := u.id, token_hash := Stored.raw gp,
             expires_at := now + 3600, is_used := false }] ∧
      Stored.raw gp ≠ hash_token gp) ∧
    (∀ (tok uid rid : String) (exp : Nat),
      reset_password
        { st_empty with password_reset_tokens :=
            [{ id := rid, user_id := uid, token_hash := hash_token tok,
               expires_at := exp, is_used := false }] }
        tok "NewSecret2!" 0 =
        .error { status_code := 400,
                 detail := "Invalid or expired reset token" }) ∧
    (∀ (tok uid rid : String),
      (reset_password
        { st_empty with password_reset_tokens :=
            [{ id := rid, user_id := uid, token_hash := Stored.raw tok,
               expires_at := 100, is_used := false }] }
        tok "NewSecret2!" 0).map Prod.snd =
      .ok { message :=
        "Password reset successfully. Please login with your new password." }) := by
  have hv : validate_password_strength "NewSecret2!" = (true, "") := by decide
  refine ⟨?_, ?_, ?_, ?_, ?_, ?_⟩
  · intro s st req a b c d now st' resp h
    exact register_ok_inv s st req a b c d now st' resp h
  · intro s st email password gsid now st' resp h
    exact login_ok_inv s st email password gsid now st' resp h
  · intro s st tok gsid now st' resp h
    obtain ⟨pl, sess, u, r, hd, hl, ha, hu, hr, hsess⟩ :=
      refresh_ok_inv s st tok gsid now st' resp h
    exact ⟨_, _, hsess, rfl, rfl⟩
  · intro st email gp gid now u hfind
    refine ⟨?_, by simp [hash_token]⟩
    simp [forgot_password, hfind, generate_reset_token]
  · intro tok uid rid exp
    have h1 : (Stored.sha256 tok == Stored.raw tok) = false := by
      rw [beq_eq_false_iff_ne]
      simp
    simp [reset_password, hv, List.find?, hash_token, st_empty, h1]
  · intro tok uid rid
    simp [reset_password, hv, List.find?, st_empty, Except.map]

/-- Closed instance of C10_tokens_stored_verbatim: forgot-password on the
one-user database stores the plain token rather than its digest. -/
theorem C10_tokens_stored_verbatim_witness :
    (forgot_password st_oneuser "a@x.com" "ptok" "rid" 5).1.password_reset_tokens =
      st_oneuser.password_reset_tokens ++
        [{ id := "rid", user_id := sample_user.id,
           token_hash := Stored.raw "ptok", expires_at := 5 + 3600,
           is_used := false }] ∧
    Stored.raw "ptok" ≠ hash_token "ptok" :=
  C10_tokens_stored_verbatim.2.2.2.1 st_oneuser "a@x.com" "ptok" "rid" 5
    sample_user (by decide)

end GG
